import Mathlib

/-!
Verification of the osuite structured-log emission adapter.

Shallow embedding of `src/logger/logger.go` (namespace `V1`) and of the
near-identical revision `src/unnamed/part_000` (namespace `V2`), together
with theorems settling the behavioural claims about the write funnel, the
per-level emission methods, the handler field renaming and the singleton
constructor.

Modelling conventions:
* `slog.Level` and `logging.Severity` are machine integers; they are
  embedded as `Int` (the numeric severity values are 0, 100, ..., 800 and
  no arithmetic overflows).
* `context.Context` is an opaque type parameter `Ctx`; the code only
  threads it into the injected accessors and the handler calls.
* Go `error` values are embedded as `GoError`, carrying the string that
  `fmt.Sprintf` with the verbose flag renders for the value, which is the
  only observation the code makes of an error.
* The `slog.JSONHandler` built by `New` is embedded by its two observable
  behaviours used here: its enabled-check (`level >= minLevel`, the
  semantics of `slog.HandlerOptions.Level`) and its `ReplaceAttr`
  rewriting of the built-in record fields.
* Side effects of `write` are made explicit: the fresh timestamp
  (`time.Now`), the fresh token (`uuid.NewString`) and the caller pc
  (`runtime.Callers`) are nondeterministic inputs, and the single
  `handler.Handle` call is the returned `Option Record` (`none` when the
  enabled-check rejects the entry and nothing is handed to the handler).
-/

namespace OSuite

/-- A `slog.Value`: the write funnel only builds string values, the
handler's built-in fields carry a level, a source location and a string,
and caller-supplied attribute values are otherwise opaque. -/
inductive SlogValue where
  | str (s : String)
  | level (n : Int)
  | source (file : String) (line : Nat) (function : String)
  | other (tag : Nat)
deriving DecidableEq, Repr

/-- A `slog.Attr`: a key/value pair. -/
structure Attr where
  key : String
  value : SlogValue
deriving DecidableEq, Repr

/-- A Go `error` value, observed only through the string that
`fmt.Sprintf` renders for it with the verbose flag (the default
`printErr` of `New`). -/
structure GoError where
  fmtPlusV : String
deriving DecidableEq, Repr

/-- The `LevelDefault = slog.Level(logging.Default)`: numeric value 0. -/
def LevelDefault : Int := 0

/-- The `LevelDebug = slog.Level(logging.Debug)`: numeric value 100. -/
def LevelDebug : Int := 100

/-- The `LevelInfo = slog.Level(logging.Info)`: numeric value 200. -/
def LevelInfo : Int := 200

/-- The `LevelNotice = slog.Level(logging.Notice)`: numeric value 300. -/
def LevelNotice : Int := 300

/-- The `LevelWarning = slog.Level(logging.Warning)`: numeric value 400. -/
def LevelWarning : Int := 400

/-- The `LevelError = slog.Level(logging.Error)`: numeric value 500. -/
def LevelError : Int := 500

/-- The `LevelCritical = slog.Level(logging.Critical)`: numeric value 600. -/
def LevelCritical : Int := 600

/-- The `LevelAlert = slog.Level(logging.Alert)`: numeric value 700. -/
def LevelAlert : Int := 700

/-- The `LevelEmergency = slog.Level(logging.Emergency)`: numeric value 800. -/
def LevelEmergency : Int := 800

/-- The `logMessageKey` of logger.go. -/
def logMessageKey : String := "message"

/-- The `logSeverityKey` of logger.go. -/
def logSeverityKey : String := "severity"

/-- The `logSourceLocationKey` of logger.go. -/
def logSourceLocationKey : String := "logging.googleapis.com/sourceLocation"

/-- The `logTraceKey` of logger.go. -/
def logTraceKey : String := "logging.googleapis.com/trace"

/-- The `logSpanIDKey` of logger.go. -/
def logSpanIDKey : String := "logging.googleapis.com/spanId"

/-- The `logInsertIDKey` of logger.go. -/
def logInsertIDKey : String := "logging.googleapis.com/insertId"

/-- The `logAttrReporting` of logger.go: the error-reporting marker attribute. -/
def logAttrReporting : Attr :=
  ⟨"@type",
   .str "type.googleapis.com/google.devtools.clouderrorreporting.v1beta1.ReportedErrorEvent"⟩

/-- The `cloud.google.com/go/logging.Severity.String`: the backend severity
name for the known severity values, and the decimal rendering of the
number otherwise (the library falls back to `strconv.Itoa`). -/
def severityString (n : Int) : String :=
  if n = 0 then "DEFAULT"
  else if n = 100 then "DEBUG"
  else if n = 200 then "INFO"
  else if n = 300 then "NOTICE"
  else if n = 400 then "WARNING"
  else if n = 500 then "ERROR"
  else if n = 600 then "CRITICAL"
  else if n = 700 then "ALERT"
  else if n = 800 then "EMERGENCY"
  else toString n

/-- The `slog.TimeKey`, the built-in key the JSON handler uses for the time
field. -/
def slogTimeKey : String := "time"

/-- The `slog.LevelKey`, the built-in key the JSON handler uses for the level
field. -/
def slogLevelKey : String := "level"

/-- The `slog.MessageKey`, the built-in key the JSON handler uses for the
message field. -/
def slogMessageKey : String := "msg"

/-- The `slog.SourceKey`, the built-in key the JSON handler uses for the
source-location field. -/
def slogSourceKey : String := "source"

/-- A `slog.Record` as handed to `handler.Handle`: the timestamp and
program counter are the nondeterministic inputs recorded verbatim. -/
structure Record where
  time : Nat
  level : Int
  msg : String
  pc : Nat
  attrs : List Attr
deriving DecidableEq, Repr

end OSuite

namespace V1

open OSuite

/-- The `Entry` struct of logger.go. -/
structure Entry where
  level : Int
  msg : String
  additionalAttrs : List Attr
  skipCaller : Int
  errorReport : Bool
deriving DecidableEq, Repr

/-- The `EntryOption` values exported by logger.go: `WithAttrs`,
`WithSkipCaller` and `WithErrorReport` are the only constructors of
entry options the package provides. -/
inductive EntryOption where
  | withAttrs (attrs : List Attr)
  | withSkipCaller (skip : Int)
  | withErrorReport (report : Bool)

/-- Application of one `EntryOption` to an entry, exactly as the three
option closures mutate their `*Entry` argument. -/
def applyEntryOption (e : Entry) : EntryOption → Entry
  | .withAttrs attrs => { e with additionalAttrs := attrs }
  | .withSkipCaller skip => { e with skipCaller := skip }
  | .withErrorReport report => { e with errorReport := report }

/-- The `NewEntry` of logger.go: zero-value entry for the level and message,
then the options applied in order. -/
def NewEntry (level : Int) (msg : String) (opts : List EntryOption) : Entry :=
  opts.foldl applyEntryOption
    { level := level, msg := msg, additionalAttrs := [], skipCaller := 0, errorReport := false }

/-- The `Logger` struct of logger.go.  The `slog.JSONHandler` stored in
the `handler` field is represented by the minimum level it was
constructed with (its enabled-check is `level >= minLevel`); its
rewriting of built-in fields is `replaceAttr` below. -/
structure Logger (Ctx Err : Type) where
  minLevel : Int
  projectID : String
  printErr : Err → String
  getTraceID : Ctx → String
  getSpanID : Ctx → String

/-- The `LoggerOption` values exported by logger.go: `WithPrintError`,
`WithTraceID` and `WithSpanID` are the only constructors of logger
options the package provides. -/
inductive LoggerOption (Ctx Err : Type) where
  | withPrintError (f : Err → String)
  | withTraceID (f : Ctx → String)
  | withSpanID (f : Ctx → String)

/-- Application of one `LoggerOption`, exactly as the three option
closures mutate their `*Logger` argument. -/
def applyLoggerOption (l : Logger Ctx Err) : LoggerOption Ctx Err → Logger Ctx Err
  | .withPrintError f => { l with printErr := f }
  | .withTraceID f => { l with getTraceID := f }
  | .withSpanID f => { l with getSpanID := f }

/-- The `New` of logger.go: builds the JSON handler for the given minimum
level (carried as `minLevel`), fills in the default error renderer and
the default empty trace/span accessors, then applies the options in
order.  The output writer has no observable behaviour in this model. -/
def New (Ctx : Type) (projectID : String) (minLevel : Int)
    (opts : List (LoggerOption Ctx GoError)) : Logger Ctx GoError :=
  opts.foldl applyLoggerOption
    { minLevel := minLevel
      projectID := projectID
      printErr := fun err => err.fmtPlusV
      getTraceID := fun _ => ""
      getSpanID := fun _ => "" }

/-- The handler's `Enabled` check: `slog.JSONHandler` with
`HandlerOptions.Level = minLevel` reports a level enabled exactly when
it is at least the minimum level.  The context argument is ignored by
the handler. -/
def Logger.enabled (l : Logger Ctx Err) (_ctx : Ctx) (level : Int) : Bool :=
  l.minLevel ≤ level

/-- The `Logger.write` of logger.go, the single funnel.  The fresh timestamp,
the fresh uuid token and the pc found by `runtime.Callers` are explicit
inputs; the return value is the record handed to `handler.Handle`
(`none` when the enabled-check rejects the entry: the only early
return). -/
def Logger.write (l : Logger Ctx Err) (ctx : Ctx) (entry : Entry)
    (now : Nat) (insertId : String) (pc : Nat) : Option Record :=
  if ¬ l.enabled ctx entry.level then none
  else
    let r : Record :=
      { time := now, level := entry.level, msg := entry.msg, pc := pc, attrs := [] }
    let attrs : List Attr := [⟨logInsertIDKey, .str insertId⟩]
    let attrs := if entry.errorReport then attrs ++ [logAttrReporting] else attrs
    let traceID := l.getTraceID ctx
    let attrs :=
      if traceID ≠ "" then
        let attrs := attrs ++
          [⟨logTraceKey, .str ("projects/" ++ l.projectID ++ "/traces/" ++ traceID)⟩]
        let spanID := l.getSpanID ctx
        if spanID ≠ "" then attrs ++ [⟨logSpanIDKey, .str spanID⟩] else attrs
      else attrs
    let attrs := attrs ++ entry.additionalAttrs
    some { r with attrs := attrs }

/-- The `Logger.Default` of logger.go. -/
def Logger.Default (l : Logger Ctx Err) (ctx : Ctx) (msg : String)
    (opts : List EntryOption) (now : Nat) (insertId : String) (pc : Nat) : Option Record :=
  l.write ctx (NewEntry LevelDefault msg opts) now insertId pc

/-- The `Logger.Debug` of logger.go. -/
def Logger.Debug (l : Logger Ctx Err) (ctx : Ctx) (msg : String)
    (opts : List EntryOption) (now : Nat) (insertId : String) (pc : Nat) : Option Record :=
  l.write ctx (NewEntry LevelDebug msg opts) now insertId pc

/-- The `Logger.Info` of logger.go. -/
def Logger.Info (l : Logger Ctx Err) (ctx : Ctx) (msg : String)
    (opts : List EntryOption) (now : Nat) (insertId : String) (pc : Nat) : Option Record :=
  l.write ctx (NewEntry LevelInfo msg opts) now insertId pc

/-- The `Logger.Notice` of logger.go. -/
def Logger.Notice (l : Logger Ctx Err) (ctx : Ctx) (msg : String)
    (opts : List EntryOption) (now : Nat) (insertId : String) (pc : Nat) : Option Record :=
  l.write ctx (NewEntry LevelNotice msg opts) now insertId pc

/-- The `Logger.Warn` of logger.go. -/
def Logger.Warn (l : Logger Ctx Err) (ctx : Ctx) (msg : String)
    (opts : List EntryOption) (now : Nat) (insertId : String) (pc : Nat) : Option Record :=
  l.write ctx (NewEntry LevelWarning msg opts) now insertId pc

/-- The `Logger.Error` of logger.go: renders the error through `printErr`,
then forces the error-report flag after the options were applied. -/
def Logger.Error (l : Logger Ctx Err) (ctx : Ctx) (err : Err)
    (opts : List EntryOption) (now : Nat) (insertId : String) (pc : Nat) : Option Record :=
  let entry := NewEntry LevelError (l.printErr err) opts
  l.write ctx { entry with errorReport := true } now insertId pc

/-- The `Logger.Critical` of logger.go. -/
def Logger.Critical (l : Logger Ctx Err) (ctx : Ctx) (err : Err)
    (opts : List EntryOption) (now : Nat) (insertId : String) (pc : Nat) : Option Record :=
  let entry := NewEntry LevelCritical (l.printErr err) opts
  l.write ctx { entry with errorReport := true } now insertId pc

/-- The `Logger.Alert` of logger.go. -/
def Logger.Alert (l : Logger Ctx Err) (ctx : Ctx) (err : Err)
    (opts : List EntryOption) (now : Nat) (insertId : String) (pc : Nat) : Option Record :=
  let entry := NewEntry LevelAlert (l.printErr err) opts
  l.write ctx { entry with errorReport := true } now insertId pc

/-- The `Logger.Emergency` of logger.go. -/
def Logger.Emergency (l : Logger Ctx Err) (ctx : Ctx) (err : Err)
    (opts : List EntryOption) (now : Nat) (insertId : String) (pc : Nat) : Option Record :=
  let entry := NewEntry LevelEmergency (l.printErr err) opts
  l.write ctx { entry with errorReport := true } now insertId pc

/-- The `Logger.Custom` of logger.go. -/
def Logger.Custom (l : Logger Ctx Err) (ctx : Ctx) (entry : Entry)
    (now : Nat) (insertId : String) (pc : Nat) : Option Record :=
  l.write ctx entry now insertId pc

/-- The `replaceAttr` closure built by `New`: rewrites the three built-in
keys of the JSON handler.  The level branch type-asserts the value to a
`slog.Level` (a failed assertion panics in Go, modelled as `none`); in
the handler the built-in level field always carries a level value. -/
def replaceAttr (_groups : List String) (a : Attr) : Option Attr :=
  if a.key = slogLevelKey then
    match a.value with
    | .level n => some ⟨logSeverityKey, .str (severityString n)⟩
    | _ => none
  else if a.key = slogSourceKey then some { a with key := logSourceLocationKey }
  else if a.key = slogMessageKey then some { a with key := logMessageKey }
  else some a

/-- The built-in level, source and message fields of a record as the JSON
handler emits them after `replaceAttr` (the time field passes through
the default branch unchanged and is omitted here; `srcVal` is the
source-location value the handler resolves from the record's pc). -/
def encodeBuiltins (level : Int) (msg : String) (srcVal : SlogValue) : Option (List Attr) :=
  match replaceAttr [] ⟨slogLevelKey, .level level⟩,
        replaceAttr [] ⟨slogSourceKey, srcVal⟩,
        replaceAttr [] ⟨slogMessageKey, .str msg⟩ with
  | some a, some b, some c => some [a, b, c]
  | _, _, _ => none

/-- The `MustDefault` of logger.go, with `sync.OnceValue` modelled as the
pure value it caches: the environment lookup (`os.Getenv` returns the
empty string when the variable is unset) decides between a panic
(`none`) and the `New` construction on stderr at the default level. -/
def MustDefault (Ctx : Type) (getenv : String → String) : Option (Logger Ctx GoError) :=
  let projectID := getenv "GOOGLE_CLOUD_PROJECT"
  if projectID = "" then none
  else some (New Ctx projectID LevelDefault [])

end V1

namespace V2

open OSuite

/-- The `EntryParams` struct of part_000 (the other revision's name for
the entry; its attribute field is named `attrs`). -/
structure EntryParams where
  level : Int
  msg : String
  attrs : List Attr
  skipCaller : Int
  errorReport : Bool
deriving DecidableEq, Repr

/-- The `EntryOption` values exported by part_000: the same three
constructors, targeting `EntryParams`. -/
inductive EntryOption where
  | withAttrs (attrs : List Attr)
  | withSkipCaller (skip : Int)
  | withErrorReport (report : Bool)

/-- Application of one part_000 `EntryOption`, exactly as the three
option closures mutate their `*EntryParams` argument. -/
def applyEntryOption (e : EntryParams) : EntryOption → EntryParams
  | .withAttrs attrs => { e with attrs := attrs }
  | .withSkipCaller skip => { e with skipCaller := skip }
  | .withErrorReport report => { e with errorReport := report }

/-- The `NewEntryParams` of part_000. -/
def NewEntryParams (level : Int) (msg : String) (opts : List EntryOption) : EntryParams :=
  opts.foldl applyEntryOption
    { level := level, msg := msg, attrs := [], skipCaller := 0, errorReport := false }

/-- The `Logger` struct of part_000 (textually identical to the one in
logger.go, embedded separately so the two revisions can be compared). -/
structure Logger (Ctx Err : Type) where
  minLevel : Int
  projectID : String
  printErr : Err → String
  getTraceID : Ctx → String
  getSpanID : Ctx → String

/-- The handler's `Enabled` check for the part_000 logger. -/
def Logger.enabled (l : Logger Ctx Err) (_ctx : Ctx) (level : Int) : Bool :=
  l.minLevel ≤ level

/-- The `Logger.write` of part_000: the same funnel over `EntryParams`
(the commented-out option loop in the source is dead code). -/
def Logger.write (l : Logger Ctx Err) (ctx : Ctx) (params : EntryParams)
    (now : Nat) (insertId : String) (pc : Nat) : Option Record :=
  if ¬ l.enabled ctx params.level then none
  else
    let r : Record :=
      { time := now, level := params.level, msg := params.msg, pc := pc, attrs := [] }
    let attrs : List Attr := [⟨logInsertIDKey, .str insertId⟩]
    let attrs := if params.errorReport then attrs ++ [logAttrReporting] else attrs
    let traceID := l.getTraceID ctx
    let attrs :=
      if traceID ≠ "" then
        let attrs := attrs ++
          [⟨logTraceKey, .str ("projects/" ++ l.projectID ++ "/traces/" ++ traceID)⟩]
        let spanID := l.getSpanID ctx
        if spanID ≠ "" then attrs ++ [⟨logSpanIDKey, .str spanID⟩] else attrs
      else attrs
    let attrs := attrs ++ params.attrs
    some { r with attrs := attrs }

end V2

namespace OSuite

/-- Field-for-field correspondence between a logger.go `Entry` and a
part_000 `EntryParams` (`additionalAttrs` corresponds to `attrs`). -/
def entryToParams (e : V1.Entry) : V2.EntryParams :=
  { level := e.level, msg := e.msg, attrs := e.additionalAttrs
    skipCaller := e.skipCaller, errorReport := e.errorReport }

/-- Field-for-field correspondence between the two revisions' `Logger`
structs (they have identical fields). -/
def loggerToV2 (l : V1.Logger Ctx Err) : V2.Logger Ctx Err :=
  { minLevel := l.minLevel, projectID := l.projectID, printErr := l.printErr
    getTraceID := l.getTraceID, getSpanID := l.getSpanID }

end OSuite

namespace OSuite

/-- A concrete logger instance (project `proj-x`, threshold Default,
trace accessor returning `abc123`, span accessor returning `span9`) used
to evaluate the embedded definitions on closed inputs. -/
def sampleLogger : V1.Logger Unit GoError :=
  { minLevel := LevelDefault
    projectID := "proj-x"
    printErr := fun e => e.fmtPlusV
    getTraceID := fun _ => "abc123"
    getSpanID := fun _ => "span9" }

/-- A concrete logger instance whose trace accessor returns the empty
string while the span accessor returns a non-empty string. -/
def sampleLoggerNoTrace : V1.Logger Unit GoError :=
  { minLevel := LevelDefault
    projectID := "proj-x"
    printErr := fun e => e.fmtPlusV
    getTraceID := fun _ => ""
    getSpanID := fun _ => "span9" }

end OSuite

open OSuite

theorem v1_enabled_iff {Ctx Err : Type} (l : V1.Logger Ctx Err) (ctx : Ctx) (lvl : Int) :
    l.enabled ctx lvl = true ↔ l.minLevel ≤ lvl := by
  simp [V1.Logger.enabled]

theorem v1_write_disabled {Ctx Err : Type} (l : V1.Logger Ctx Err) (ctx : Ctx)
    (entry : V1.Entry) (now : Nat) (insertId : String) (pc : Nat)
    (h : entry.level < l.minLevel) :
    l.write ctx entry now insertId pc = none := by
  unfold V1.Logger.write
  rw [if_pos]
  simp [V1.Logger.enabled, not_le.mpr h]

theorem v1_write_enabled_eq {Ctx Err : Type} (l : V1.Logger Ctx Err) (ctx : Ctx)
    (entry : V1.Entry) (now : Nat) (insertId : String) (pc : Nat)
    (h : l.minLevel ≤ entry.level) :
    l.write ctx entry now insertId pc =
      some { time := now, level := entry.level, msg := entry.msg, pc := pc,
             attrs := [⟨logInsertIDKey, .str insertId⟩]
               ++ (if entry.errorReport then [logAttrReporting] else [])
               ++ (if l.getTraceID ctx ≠ "" then
                     [⟨logTraceKey,
                       .str ("projects/" ++ l.projectID ++ "/traces/" ++ l.getTraceID ctx)⟩]
                     ++ (if l.getSpanID ctx ≠ "" then
                           [⟨logSpanIDKey, .str (l.getSpanID ctx)⟩]
                         else [])
                   else [])
               ++ entry.additionalAttrs } := by
  unfold V1.Logger.write
  rw [if_neg (by simp [V1.Logger.enabled, h])]
  by_cases hr : entry.errorReport <;>
    by_cases ht : l.getTraceID ctx = "" <;>
    by_cases hs : l.getSpanID ctx = "" <;>
    simp [hr, ht, hs]

theorem v1_write_some_elim {Ctx Err : Type} (l : V1.Logger Ctx Err) (ctx : Ctx)
    (entry : V1.Entry) (now : Nat) (insertId : String) (pc : Nat) (r : Record)
    (hw : l.write ctx entry now insertId pc = some r) :
    l.minLevel ≤ entry.level ∧
      r = { time := now, level := entry.level, msg := entry.msg, pc := pc,
            attrs := [⟨logInsertIDKey, .str insertId⟩]
              ++ (if entry.errorReport then [logAttrReporting] else [])
              ++ (if l.getTraceID ctx ≠ "" then
                    [⟨logTraceKey,
                      .str ("projects/" ++ l.projectID ++ "/traces/" ++ l.getTraceID ctx)⟩]
                    ++ (if l.getSpanID ctx ≠ "" then
                          [⟨logSpanIDKey, .str (l.getSpanID ctx)⟩]
                        else [])
                  else [])
              ++ entry.additionalAttrs } := by
  by_cases h : l.minLevel ≤ entry.level
  · refine ⟨h, ?_⟩
    have := v1_write_enabled_eq l ctx entry now insertId pc h
    rw [hw] at this
    exact Option.some.inj this
  · rw [v1_write_disabled l ctx entry now insertId pc (not_le.mp h)] at hw
    cases hw

/-- C1: an entry whose severity fails the handler's enabled-check (level
below the configured minimum) makes the write funnel return immediately
with nothing handed to the handler, and this is the only early exit: the
funnel drops the entry exactly when the level is below the minimum, and
otherwise hands exactly one record to the handler per call. -/
theorem claim1_write_threshold_gate {Ctx Err : Type} (l : V1.Logger Ctx Err) (ctx : Ctx)
    (entry : V1.Entry) (now : Nat) (insertId : String) (pc : Nat) :
    (l.write ctx entry now insertId pc = none ↔ entry.level < l.minLevel) ∧
    (l.write ctx entry now insertId pc).toList.length =
      (if l.minLevel ≤ entry.level then 1 else 0) := by
  by_cases h : l.minLevel ≤ entry.level
  · rw [v1_write_enabled_eq l ctx entry now insertId pc h]
    simp [h, not_le.mpr, not_lt.mpr h]
  · rw [v1_write_disabled l ctx entry now insertId pc (not_le.mp h)]
    simp [h, not_le.mp h]

/-- C3: every emitted record's attribute list is, in order, the
insertion-ID attribute, then the error-reporting marker when the
error-report flag is set, then the trace attribute when the trace
accessor returns non-empty with the span-ID attribute nested inside that
same condition when the span accessor also returns non-empty, and
finally the entry's own extra attributes appended last. -/
theorem claim3_attr_order {Ctx Err : Type} (l : V1.Logger Ctx Err) (ctx : Ctx)
    (entry : V1.Entry) (now : Nat) (insertId : String) (pc : Nat)
    (h : l.minLevel ≤ entry.level) :
    l.write ctx entry now insertId pc =
      some { time := now, level := entry.level, msg := entry.msg, pc := pc,
             attrs := [⟨logInsertIDKey, .str insertId⟩]
               ++ (if entry.errorReport then [logAttrReporting] else [])
               ++ (if l.getTraceID ctx ≠ "" then
                     [⟨logTraceKey,
                       .str ("projects/" ++ l.projectID ++ "/traces/" ++ l.getTraceID ctx)⟩]
                     ++ (if l.getSpanID ctx ≠ "" then
                           [⟨logSpanIDKey, .str (l.getSpanID ctx)⟩]
                         else [])
                   else [])
               ++ entry.additionalAttrs } :=
  v1_write_enabled_eq l ctx entry now insertId pc h

/-- Witness for C3: the attribute order evaluated on a concrete logger
and entry. -/
theorem claim3_attr_order_witness :
    sampleLogger.write () ⟨LevelInfo, "m", [⟨"k", .str "v"⟩], 0, true⟩ 5 "uid" 7 =
      some { time := 5, level := LevelInfo, msg := "m", pc := 7,
             attrs := [⟨logInsertIDKey, .str "uid"⟩]
               ++ [logAttrReporting]
               ++ ([⟨logTraceKey, .str "projects/proj-x/traces/abc123"⟩]
                   ++ [⟨logSpanIDKey, .str "span9"⟩])
               ++ [⟨"k", .str "v"⟩] } := by
  have h := claim3_attr_order sampleLogger () ⟨LevelInfo, "m", [⟨"k", .str "v"⟩], 0, true⟩
    5 "uid" 7 (by decide)
  simpa [sampleLogger] using h

theorem v1_foldl_entry_msg (opts : List V1.EntryOption) (e : V1.Entry) :
    (opts.foldl V1.applyEntryOption e).msg = e.msg := by
  induction opts generalizing e with
  | nil => rfl
  | cons o os ih => cases o <;> simp [List.foldl_cons, V1.applyEntryOption, ih]

theorem v1_foldl_entry_level (opts : List V1.EntryOption) (e : V1.Entry) :
    (opts.foldl V1.applyEntryOption e).level = e.level := by
  induction opts generalizing e with
  | nil => rfl
  | cons o os ih => cases o <;> simp [List.foldl_cons, V1.applyEntryOption, ih]

theorem v1_foldl_entry_errorReport_false (opts : List V1.EntryOption) (e : V1.Entry)
    (hno : V1.EntryOption.withErrorReport true ∉ opts) (he : e.errorReport = false) :
    (opts.foldl V1.applyEntryOption e).errorReport = false := by
  induction opts generalizing e with
  | nil => exact he
  | cons o os ih =>
    have hno2 : V1.EntryOption.withErrorReport true ∉ os := fun h =>
      hno (List.mem_cons_of_mem _ h)
    simp only [List.foldl_cons]
    cases o with
    | withAttrs a => exact ih _ hno2 (by simpa [V1.applyEntryOption] using he)
    | withSkipCaller s => exact ih _ hno2 (by simpa [V1.applyEntryOption] using he)
    | withErrorReport b =>
      cases b with
      | false => exact ih _ hno2 (by simp [V1.applyEntryOption])
      | true => exact absurd (List.mem_cons_self _ _) hno

theorem v1_foldl_entry_attrs_cases (opts : List V1.EntryOption) (e : V1.Entry) :
    (opts.foldl V1.applyEntryOption e).additionalAttrs = e.additionalAttrs ∨
    ∃ attrs, V1.EntryOption.withAttrs attrs ∈ opts ∧
      (opts.foldl V1.applyEntryOption e).additionalAttrs = attrs := by
  induction opts generalizing e with
  | nil => exact Or.inl rfl
  | cons o os ih =>
    simp only [List.foldl_cons]
    cases o with
    | withAttrs a =>
      rcases ih (V1.applyEntryOption e (.withAttrs a)) with h | ⟨attrs, hm, hq⟩
      · exact Or.inr ⟨a, List.mem_cons_self _ _, by simpa [V1.applyEntryOption] using h⟩
      · exact Or.inr ⟨attrs, List.mem_cons_of_mem _ hm, hq⟩
    | withSkipCaller s =>
      rcases ih (V1.applyEntryOption e (.withSkipCaller s)) with h | ⟨attrs, hm, hq⟩
      · exact Or.inl (by simpa [V1.applyEntryOption] using h)
      · exact Or.inr ⟨attrs, List.mem_cons_of_mem _ hm, hq⟩
    | withErrorReport b =>
      rcases ih (V1.applyEntryOption e (.withErrorReport b)) with h | ⟨attrs, hm, hq⟩
      · exact Or.inl (by simpa [V1.applyEntryOption] using h)
      · exact Or.inr ⟨attrs, List.mem_cons_of_mem _ hm, hq⟩

theorem v1_marker_mem_iff {Ctx Err : Type} (l : V1.Logger Ctx Err) (ctx : Ctx)
    (entry : V1.Entry) (now : Nat) (insertId : String) (pc : Nat) (r : Record)
    (hw : l.write ctx entry now insertId pc = some r)
    (hadds : logAttrReporting ∉ entry.additionalAttrs) :
    (logAttrReporting ∈ r.attrs ↔ entry.errorReport = true) := by
  obtain ⟨hle, hr⟩ := v1_write_some_elim l ctx entry now insertId pc r hw
  subst hr
  simp only [List.mem_append]
  constructor
  · rintro (((h1 | h2) | h3) | h4)
    · simp [logAttrReporting, logInsertIDKey] at h1
    · revert h2
      split
      · intro _; assumption
      · intro h2; simp at h2
    · revert h3
      split
      · rename_i ht
        intro h3
        rcases List.mem_append.mp h3 with h5 | h6
        · simp [logAttrReporting, logTraceKey] at h5
        · revert h6
          split
          · intro h6; simp [logAttrReporting, logSpanIDKey] at h6
          · intro h6; simp at h6
      · intro h3; simp at h3
    · exact absurd h4 hadds
  · intro hflag
    refine Or.inl (Or.inl (Or.inr ?_))
    simp [hflag]

/-- C2: the error-reporting marker attribute appears in an emitted record
exactly when the entry's error-report flag is true (for entries whose own
extra attributes do not spoof the marker); Error, Critical, Alert and
Emergency render the message through the configured error renderer and
force the flag true after the modifiers are applied, so the marker is
present even when a WithErrorReport(false) modifier is supplied; Default,
Debug, Info, Notice and Warn leave the flag false unless a
WithErrorReport(true) modifier sets it. -/
theorem claim2_error_report_flag {Ctx Err : Type} (l : V1.Logger Ctx Err) (ctx : Ctx)
    (now : Nat) (insertId : String) (pc : Nat) :
    (∀ (entry : V1.Entry) (r : Record),
        l.write ctx entry now insertId pc = some r →
        logAttrReporting ∉ entry.additionalAttrs →
        (logAttrReporting ∈ r.attrs ↔ entry.errorReport = true)) ∧
    (∀ (err : Err) (opts : List V1.EntryOption) (r : Record),
        l.Error ctx err opts now insertId pc = some r ∨
          l.Critical ctx err opts now insertId pc = some r ∨
          l.Alert ctx err opts now insertId pc = some r ∨
          l.Emergency ctx err opts now insertId pc = some r →
        logAttrReporting ∈ r.attrs ∧ r.msg = l.printErr err) ∧
    (∀ (msg : String) (opts : List V1.EntryOption) (r : Record),
        V1.EntryOption.withErrorReport true ∉ opts →
        (∀ attrs, V1.EntryOption.withAttrs attrs ∈ opts → logAttrReporting ∉ attrs) →
        l.Default ctx msg opts now insertId pc = some r ∨
          l.Debug ctx msg opts now insertId pc = some r ∨
          l.Info ctx msg opts now insertId pc = some r ∨
          l.Notice ctx msg opts now insertId pc = some r ∨
          l.Warn ctx msg opts now insertId pc = some r →
        logAttrReporting ∉ r.attrs) := by
  refine ⟨fun entry r hw hadds => v1_marker_mem_iff l ctx entry now insertId pc r hw hadds,
    fun err opts r hw => ?_, fun msg opts r hno hattrs hw => ?_⟩
  · have hmain : ∀ lvl : Int,
        l.write ctx { V1.NewEntry lvl (l.printErr err) opts with errorReport := true }
            now insertId pc = some r →
        logAttrReporting ∈ r.attrs ∧ r.msg = l.printErr err := by
      intro lvl hcall
      obtain ⟨hle, hr⟩ :=
        v1_write_some_elim l ctx _ now insertId pc r hcall
      subst hr
      constructor
      · simp
      · exact v1_foldl_entry_msg opts _
    rcases hw with h | h | h | h
    · exact hmain LevelError h
    · exact hmain LevelCritical h
    · exact hmain LevelAlert h
    · exact hmain LevelEmergency h
  · have hmain : ∀ lvl : Int,
        l.write ctx (V1.NewEntry lvl msg opts) now insertId pc = some r →
        logAttrReporting ∉ r.attrs := by
      intro lvl hcall
      have hflag : (V1.NewEntry lvl msg opts).errorReport = false :=
        v1_foldl_entry_errorReport_false opts _ hno rfl
      have hsub : logAttrReporting ∉ (V1.NewEntry lvl msg opts).additionalAttrs := by
        rcases v1_foldl_entry_attrs_cases opts
            ⟨lvl, msg, [], 0, false⟩ with h | ⟨attrs, hm, hq⟩
        · rw [V1.NewEntry, h]; simp
        · rw [V1.NewEntry, hq]; exact hattrs attrs hm
      have hiff := v1_marker_mem_iff l ctx _ now insertId pc r hcall hsub
      rw [hflag] at hiff
      simp only [Bool.false_eq_true, iff_false] at hiff
      exact hiff
    rcases hw with h | h | h | h | h
    · exact hmain LevelDefault h
    · exact hmain LevelDebug h
    · exact hmain LevelInfo h
    · exact hmain LevelNotice h
    · exact hmain LevelWarning h

/-- Witness for C2: a concrete Error call with a WithErrorReport(false)
modifier still carries the marker and the renderer's message, and a
concrete Info call without modifiers carries no marker. -/
theorem claim2_error_report_flag_witness :
    (sampleLogger.Error () ⟨"boom"⟩ [V1.EntryOption.withErrorReport false] 1 "u1" 2 =
      some { time := 1, level := LevelError, msg := "boom", pc := 2,
             attrs := [⟨logInsertIDKey, .str "u1"⟩, logAttrReporting,
                       ⟨logTraceKey, .str "projects/proj-x/traces/abc123"⟩,
                       ⟨logSpanIDKey, .str "span9"⟩] }) ∧
    logAttrReporting ∈
      ({ time := 1, level := LevelError, msg := "boom", pc := 2,
         attrs := [⟨logInsertIDKey, .str "u1"⟩, logAttrReporting,
                   ⟨logTraceKey, .str "projects/proj-x/traces/abc123"⟩,
                   ⟨logSpanIDKey, .str "span9"⟩] } : Record).attrs ∧
    ({ time := 1, level := LevelError, msg := "boom", pc := 2,
       attrs := [⟨logInsertIDKey, .str "u1"⟩, logAttrReporting,
                 ⟨logTraceKey, .str "projects/proj-x/traces/abc123"⟩,
                 ⟨logSpanIDKey, .str "span9"⟩] } : Record).msg =
      sampleLogger.printErr ⟨"boom"⟩ ∧
    (sampleLogger.Info () "hello" [] 1 "u2" 2 =
      some { time := 1, level := LevelInfo, msg := "hello", pc := 2,
             attrs := [⟨logInsertIDKey, .str "u2"⟩,
                       ⟨logTraceKey, .str "projects/proj-x/traces/abc123"⟩,
                       ⟨logSpanIDKey, .str "span9"⟩] }) ∧
    logAttrReporting ∉
      ({ time := 1, level := LevelInfo, msg := "hello", pc := 2,
         attrs := [⟨logInsertIDKey, .str "u2"⟩,
                   ⟨logTraceKey, .str "projects/proj-x/traces/abc123"⟩,
                   ⟨logSpanIDKey, .str "span9"⟩] } : Record).attrs := by
  have hE : sampleLogger.Error () ⟨"boom"⟩ [V1.EntryOption.withErrorReport false] 1 "u1" 2 =
      some { time := 1, level := LevelError, msg := "boom", pc := 2,
             attrs := [⟨logInsertIDKey, .str "u1"⟩, logAttrReporting,
                       ⟨logTraceKey, .str "projects/proj-x/traces/abc123"⟩,
                       ⟨logSpanIDKey, .str "span9"⟩] } := by decide
  have hI : sampleLogger.Info () "hello" [] 1 "u2" 2 =
      some { time := 1, level := LevelInfo, msg := "hello", pc := 2,
             attrs := [⟨logInsertIDKey, .str "u2"⟩,
                       ⟨logTraceKey, .str "projects/proj-x/traces/abc123"⟩,
                       ⟨logSpanIDKey, .str "span9"⟩] } := by decide
  have h2 := (claim2_error_report_flag sampleLogger () 1 "u1" 2).2.1 ⟨"boom"⟩
    [V1.EntryOption.withErrorReport false] _ (Or.inl hE)
  have h3 := ((claim2_error_report_flag sampleLogger () 1 "u2" 2).2.2 "hello" [] _
    (by intro h; cases h) (by intro attrs h; cases h) (Or.inr (Or.inr (Or.inl hI))))
  exact ⟨hE, h2.1, h2.2, hI, h3⟩

/-- C4: when the trace accessor returns the empty string, no emitted
record carries a span-ID attribute (whatever the span accessor returns),
provided the entry's own extra attributes do not use the span-ID key. -/
theorem claim4_span_requires_trace {Ctx Err : Type} (l : V1.Logger Ctx Err) (ctx : Ctx)
    (entry : V1.Entry) (now : Nat) (insertId : String) (pc : Nat) (r : Record)
    (htrace : l.getTraceID ctx = "")
    (hadds : entry.additionalAttrs.all (fun a => a.key != logSpanIDKey) = true)
    (hw : l.write ctx entry now insertId pc = some r) :
    r.attrs.all (fun a => a.key != logSpanIDKey) = true := by
  obtain ⟨hle, hr⟩ := v1_write_some_elim l ctx entry now insertId pc r hw
  subst hr
  simp only [List.all_append, Bool.and_eq_true, htrace]
  refine ⟨⟨⟨by simp [logInsertIDKey, logSpanIDKey], ?_⟩, by simp⟩, hadds⟩
  split
  · simp [logAttrReporting, logSpanIDKey]
  · simp

/-- Witness for C4: a concrete logger whose trace accessor returns empty
while the span accessor returns a non-empty string emits a record with
no span-ID key. -/
theorem claim4_span_requires_trace_witness :
    (sampleLoggerNoTrace.write () ⟨LevelWarning, "w", [⟨"k", .str "v"⟩], 0, false⟩ 3 "u" 4 =
      some { time := 3, level := LevelWarning, msg := "w", pc := 4,
             attrs := [⟨logInsertIDKey, .str "u"⟩, ⟨"k", .str "v"⟩] }) ∧
    ({ time := 3, level := LevelWarning, msg := "w", pc := 4,
       attrs := [⟨logInsertIDKey, .str "u"⟩, ⟨"k", .str "v"⟩] } : Record).attrs.all
      (fun a => a.key != logSpanIDKey) = true := by
  have hw : sampleLoggerNoTrace.write () ⟨LevelWarning, "w", [⟨"k", .str "v"⟩], 0, false⟩
      3 "u" 4 =
      some { time := 3, level := LevelWarning, msg := "w", pc := 4,
             attrs := [⟨logInsertIDKey, .str "u"⟩, ⟨"k", .str "v"⟩] } := by decide
  exact ⟨hw, claim4_span_requires_trace sampleLoggerNoTrace ()
    ⟨LevelWarning, "w", [⟨"k", .str "v"⟩], 0, false⟩ 3 "u" 4 _ rfl (by decide) hw⟩

theorem v1_trace_attr_mem {Ctx Err : Type} (l : V1.Logger Ctx Err) (ctx : Ctx)
    (entry : V1.Entry) (now : Nat) (insertId : String) (pc : Nat) (r : Record)
    (hw : l.write ctx entry now insertId pc = some r)
    (ht : l.getTraceID ctx ≠ "") :
    (⟨logTraceKey,
      .str ("projects/" ++ l.projectID ++ "/traces/" ++ l.getTraceID ctx)⟩ : Attr) ∈
      r.attrs := by
  obtain ⟨hle, hr⟩ := v1_write_some_elim l ctx entry now insertId pc r hw
  subst hr
  simp only [List.mem_append]
  refine Or.inl (Or.inr ?_)
  rw [if_pos ht]
  simp

/-- C5: whenever the trace accessor returns a non-empty trace ID, the
emitted record carries the trace attribute whose value is exactly the
concatenation of "projects/", the project identifier, "/traces/" and the
trace ID. -/
theorem claim5_trace_resource_name {Ctx Err : Type} (l : V1.Logger Ctx Err) (ctx : Ctx)
    (entry : V1.Entry) (now : Nat) (insertId : String) (pc : Nat) (r : Record)
    (hw : l.write ctx entry now insertId pc = some r)
    (ht : l.getTraceID ctx ≠ "") :
    (⟨logTraceKey,
      .str ("projects/" ++ l.projectID ++ "/traces/" ++ l.getTraceID ctx)⟩ : Attr) ∈
      r.attrs :=
  v1_trace_attr_mem l ctx entry now insertId pc r hw ht

/-- Witness for C5: with project identifier proj-x and trace ID abc123
the trace attribute value is exactly projects/proj-x/traces/abc123. -/
theorem claim5_trace_resource_name_witness :
    (sampleLogger.write () ⟨LevelInfo, "m", [], 0, false⟩ 1 "u" 2 =
      some { time := 1, level := LevelInfo, msg := "m", pc := 2,
             attrs := [⟨logInsertIDKey, .str "u"⟩,
                       ⟨logTraceKey, .str "projects/proj-x/traces/abc123"⟩,
                       ⟨logSpanIDKey, .str "span9"⟩] }) ∧
    (⟨logTraceKey, .str "projects/proj-x/traces/abc123"⟩ : Attr) ∈
      ({ time := 1, level := LevelInfo, msg := "m", pc := 2,
         attrs := [⟨logInsertIDKey, .str "u"⟩,
                   ⟨logTraceKey, .str "projects/proj-x/traces/abc123"⟩,
                   ⟨logSpanIDKey, .str "span9"⟩] } : Record).attrs := by
  have hw : sampleLogger.write () ⟨LevelInfo, "m", [], 0, false⟩ 1 "u" 2 =
      some { time := 1, level := LevelInfo, msg := "m", pc := 2,
             attrs := [⟨logInsertIDKey, .str "u"⟩,
                       ⟨logTraceKey, .str "projects/proj-x/traces/abc123"⟩,
                       ⟨logSpanIDKey, .str "span9"⟩] } := by decide
  refine ⟨hw, ?_⟩
  have h := claim5_trace_resource_name sampleLogger () ⟨LevelInfo, "m", [], 0, false⟩
    1 "u" 2 _ hw (by decide)
  exact h

/-- C6: the handler configured by New rewrites the three reserved slog
field names: the level field becomes the severity key carrying the
backend severity name (WARNING for the Warning level), the source field
becomes the source-location key, the message field becomes the message
key, and none of slog's internal field names appear among the rewritten
keys. -/
theorem claim6_reserved_field_renaming (lvl : Int) (msg : String) (srcVal : SlogValue) :
    V1.encodeBuiltins lvl msg srcVal =
      some [⟨logSeverityKey, .str (severityString lvl)⟩,
            ⟨logSourceLocationKey, srcVal⟩,
            ⟨logMessageKey, .str msg⟩] ∧
    severityString LevelWarning = "WARNING" ∧
    slogLevelKey ∉ [logSeverityKey, logSourceLocationKey, logMessageKey] ∧
    slogSourceKey ∉ [logSeverityKey, logSourceLocationKey, logMessageKey] ∧
    slogMessageKey ∉ [logSeverityKey, logSourceLocationKey, logMessageKey] := by
  refine ⟨?_, by decide, by decide, by decide, by decide⟩
  have h1 : V1.replaceAttr [] ⟨slogLevelKey, .level lvl⟩ =
      some ⟨logSeverityKey, .str (severityString lvl)⟩ := by
    unfold V1.replaceAttr
    rw [if_pos rfl]
  have h2 : V1.replaceAttr [] ⟨slogSourceKey, srcVal⟩ =
      some ⟨logSourceLocationKey, srcVal⟩ := by
    unfold V1.replaceAttr
    rw [if_neg (show ¬slogSourceKey = slogLevelKey by decide), if_pos rfl]
  have h3 : V1.replaceAttr [] ⟨slogMessageKey, .str msg⟩ =
      some ⟨logMessageKey, .str msg⟩ := by
    unfold V1.replaceAttr
    rw [if_neg (show ¬slogMessageKey = slogLevelKey by decide),
      if_neg (show ¬slogMessageKey = slogSourceKey by decide), if_pos rfl]
  unfold V1.encodeBuiltins
  rw [h1, h2, h3]

/-- C7: every emitted record carries the freshly generated insertion-ID
attribute as the first funnel attribute, and two emission calls whose
fresh tokens differ (the contract of the uuid generator, modelled by the
distinct supplied tokens) produce records with distinct insertion-ID
values, whatever their timestamps and messages. -/
theorem claim7_insert_id_unique {Ctx Err : Type} (l l2 : V1.Logger Ctx Err)
    (ctx ctx2 : Ctx) (e e2 : V1.Entry) (now now2 : Nat) (id id2 : String)
    (pc pc2 : Nat) (r r2 : Record)
    (hw : l.write ctx e now id pc = some r)
    (hw2 : l2.write ctx2 e2 now2 id2 pc2 = some r2)
    (hid : id ≠ id2) :
    r.attrs.head? = some ⟨logInsertIDKey, .str id⟩ ∧
    r2.attrs.head? = some ⟨logInsertIDKey, .str id2⟩ ∧
    r.attrs.head? ≠ r2.attrs.head? := by
  obtain ⟨hle, hr⟩ := v1_write_some_elim l ctx e now id pc r hw
  obtain ⟨hle2, hr2⟩ := v1_write_some_elim l2 ctx2 e2 now2 id2 pc2 r2 hw2
  subst hr hr2
  refine ⟨by simp, by simp, ?_⟩
  simp only [List.cons_append, List.head?_cons, ne_eq, Option.some.injEq,
    Attr.mk.injEq, SlogValue.str.injEq]
  intro h
  exact hid h.2

/-- Witness for C7: two concrete calls in the same timestamp tick with
identical messages but distinct fresh tokens give distinct insertion-ID
values. -/
theorem claim7_insert_id_unique_witness :
    (sampleLogger.write () ⟨LevelInfo, "m", [], 0, false⟩ 1 "id-a" 0 =
      some { time := 1, level := LevelInfo, msg := "m", pc := 0,
             attrs := [⟨logInsertIDKey, .str "id-a"⟩,
                       ⟨logTraceKey, .str "projects/proj-x/traces/abc123"⟩,
                       ⟨logSpanIDKey, .str "span9"⟩] }) ∧
    (sampleLogger.write () ⟨LevelInfo, "m", [], 0, false⟩ 1 "id-b" 0 =
      some { time := 1, level := LevelInfo, msg := "m", pc := 0,
             attrs := [⟨logInsertIDKey, .str "id-b"⟩,
                       ⟨logTraceKey, .str "projects/proj-x/traces/abc123"⟩,
                       ⟨logSpanIDKey, .str "span9"⟩] }) ∧
    ({ time := 1, level := LevelInfo, msg := "m", pc := 0,
       attrs := [⟨logInsertIDKey, .str "id-a"⟩,
                 ⟨logTraceKey, .str "projects/proj-x/traces/abc123"⟩,
                 ⟨logSpanIDKey, .str "span9"⟩] } : Record).attrs.head? =
        some ⟨logInsertIDKey, .str "id-a"⟩ ∧
    ({ time := 1, level := LevelInfo, msg := "m", pc := 0,
       attrs := [⟨logInsertIDKey, .str "id-b"⟩,
                 ⟨logTraceKey, .str "projects/proj-x/traces/abc123"⟩,
                 ⟨logSpanIDKey, .str "span9"⟩] } : Record).attrs.head? =
        some ⟨logInsertIDKey, .str "id-b"⟩ ∧
    ({ time := 1, level := LevelInfo, msg := "m", pc := 0,
       attrs := [⟨logInsertIDKey, .str "id-a"⟩,
                 ⟨logTraceKey, .str "projects/proj-x/traces/abc123"⟩,
                 ⟨logSpanIDKey, .str "span9"⟩] } : Record).attrs.head? ≠
      ({ time := 1, level := LevelInfo, msg := "m", pc := 0,
         attrs := [⟨logInsertIDKey, .str "id-b"⟩,
                   ⟨logTraceKey, .str "projects/proj-x/traces/abc123"⟩,
                   ⟨logSpanIDKey, .str "span9"⟩] } : Record).attrs.head? := by
  have hwa : sampleLogger.write () ⟨LevelInfo, "m", [], 0, false⟩ 1 "id-a" 0 =
      some { time := 1, level := LevelInfo, msg := "m", pc := 0,
             attrs := [⟨logInsertIDKey, .str "id-a"⟩,
                       ⟨logTraceKey, .str "projects/proj-x/traces/abc123"⟩,
                       ⟨logSpanIDKey, .str "span9"⟩] } := by decide
  have hwb : sampleLogger.write () ⟨LevelInfo, "m", [], 0, false⟩ 1 "id-b" 0 =
      some { time := 1, level := LevelInfo, msg := "m", pc := 0,
             attrs := [⟨logInsertIDKey, .str "id-b"⟩,
                       ⟨logTraceKey, .str "projects/proj-x/traces/abc123"⟩,
                       ⟨logSpanIDKey, .str "span9"⟩] } := by decide
  have h := claim7_insert_id_unique sampleLogger sampleLogger () ()
    ⟨LevelInfo, "m", [], 0, false⟩ ⟨LevelInfo, "m", [], 0, false⟩ 1 1 "id-a" "id-b"
    0 0 _ _ hwa hwb (by decide)
  exact ⟨hwa, hwb, h.1, h.2.1, h.2.2⟩

/-- C8: the process-wide singleton constructor panics (returns no logger)
when the required environment value is unset (the empty lookup result),
and otherwise yields exactly the one logger built by the single New call
on the looked-up project identifier at the Default threshold — the value
cached by the once-only wrapper, so every call observes this same
result. -/
theorem claim8_must_default (Ctx : Type) (getenv : String → String) :
    (getenv "GOOGLE_CLOUD_PROJECT" = "" → V1.MustDefault Ctx getenv = none) ∧
    (getenv "GOOGLE_CLOUD_PROJECT" ≠ "" →
      V1.MustDefault Ctx getenv =
        some (V1.New Ctx (getenv "GOOGLE_CLOUD_PROJECT") LevelDefault []) ∧
      (V1.MustDefault Ctx getenv).isSome = true) := by
  constructor
  · intro h
    unfold V1.MustDefault
    rw [if_pos h]
  · intro h
    unfold V1.MustDefault
    rw [if_neg h]
    simp

/-- Witness for C8: an empty environment makes the constructor panic and
an environment carrying proj-x yields the New construction on proj-x. -/
theorem claim8_must_default_witness :
    V1.MustDefault Unit (fun _ => "") = none ∧
    V1.MustDefault Unit (fun _ => "proj-x") =
      some (V1.New Unit "proj-x" LevelDefault []) :=
  ⟨(claim8_must_default Unit (fun _ => "")).1 rfl,
   ((claim8_must_default Unit (fun _ => "proj-x")).2 (by decide)).1⟩

/-- C9: the two revisions implement the same behaviour: for every
identically configured logger, context and entry (fields corresponding
one for one), the write funnel of logger.go and the write funnel of
part_000 produce the same record and make the same handler calls. -/
theorem claim9_revision_equivalence {Ctx Err : Type} (l : V1.Logger Ctx Err) (ctx : Ctx)
    (e : V1.Entry) (now : Nat) (insertId : String) (pc : Nat) :
    (loggerToV2 l).write ctx (entryToParams e) now insertId pc =
      l.write ctx e now insertId pc := rfl

theorem v1_loggerOpt_foldl_projectID {Ctx Err : Type}
    (opts : List (V1.LoggerOption Ctx Err)) (l : V1.Logger Ctx Err) :
    (opts.foldl V1.applyLoggerOption l).projectID = l.projectID := by
  induction opts generalizing l with
  | nil => rfl
  | cons o os ih => cases o <;> simp [List.foldl_cons, V1.applyLoggerOption, ih]

theorem v1_new_projectID (Ctx : Type) (pid : String) (minLevel : Int)
    (opts : List (V1.LoggerOption Ctx GoError)) :
    (V1.New Ctx pid minLevel opts).projectID = pid := by
  unfold V1.New
  rw [v1_loggerOpt_foldl_projectID]

/-- C10: New does not validate its project-identifier argument: any
string, the empty string included, is stored as given, and with an empty
project identifier every record emitted under a non-empty trace ID
carries the malformed trace value projects//traces/ followed by the
trace ID. -/
theorem claim10_no_project_validation (Ctx : Type) (minLevel : Int)
    (opts : List (V1.LoggerOption Ctx GoError)) (ctx : Ctx) (entry : V1.Entry)
    (now : Nat) (insertId : String) (pc : Nat) (r : Record) (pid : String) :
    (V1.New Ctx pid minLevel opts).projectID = pid ∧
    ((V1.New Ctx "" minLevel opts).write ctx entry now insertId pc = some r →
      (V1.New Ctx "" minLevel opts).getTraceID ctx ≠ "" →
      (⟨logTraceKey,
        .str ("projects//traces/" ++ (V1.New Ctx "" minLevel opts).getTraceID ctx)⟩ :
        Attr) ∈ r.attrs) := by
  refine ⟨v1_new_projectID Ctx pid minLevel opts, fun hw ht => ?_⟩
  have h := v1_trace_attr_mem _ ctx entry now insertId pc r hw ht
  rw [v1_new_projectID Ctx "" minLevel opts] at h
  have heq : ("projects/" ++ "" ++ "/traces/" : String) = "projects//traces/" := by decide
  rw [heq] at h
  exact h

/-- Witness for C10: a logger built with the empty project identifier and
a trace accessor returning abc123 emits the malformed trace value
projects//traces/abc123. -/
theorem claim10_no_project_validation_witness :
    ((V1.New Unit "" 0 [V1.LoggerOption.withTraceID (fun _ => "abc123")]).write ()
        ⟨LevelInfo, "m", [], 0, false⟩ 1 "u" 2 =
      some { time := 1, level := LevelInfo, msg := "m", pc := 2,
             attrs := [⟨logInsertIDKey, .str "u"⟩,
                       ⟨logTraceKey, .str "projects//traces/abc123"⟩] }) ∧
    (⟨logTraceKey, .str "projects//traces/abc123"⟩ : Attr) ∈
      ({ time := 1, level := LevelInfo, msg := "m", pc := 2,
         attrs := [⟨logInsertIDKey, .str "u"⟩,
                   ⟨logTraceKey, .str "projects//traces/abc123"⟩] } : Record).attrs := by
  have hw : (V1.New Unit "" 0 [V1.LoggerOption.withTraceID (fun _ => "abc123")]).write ()
      ⟨LevelInfo, "m", [], 0, false⟩ 1 "u" 2 =
      some { time := 1, level := LevelInfo, msg := "m", pc := 2,
             attrs := [⟨logInsertIDKey, .str "u"⟩,
                       ⟨logTraceKey, .str "projects//traces/abc123"⟩] } := by decide
  refine ⟨hw, ?_⟩
  have h := (claim10_no_project_validation Unit 0
    [V1.LoggerOption.withTraceID (fun _ => "abc123")] () ⟨LevelInfo, "m", [], 0, false⟩
    1 "u" 2 _ "").2 hw (by decide)
  exact h
